import Mathlib

/-!
Verification of the gateway service-runtime abstraction layer (PM2 adapter,
Linux service resolver) and the proxy-fetch lifecycle, shallowly embedded
from the TypeScript source.
-/

/-- Captured result of one CLI invocation (`execPm2` wraps every `pm2` call
so that a nonzero exit is returned as `{stdout, stderr, code}`, never raised). -/
structure ExecResult where
  stdout : String
  stderr : String
  code : Int
deriving Repr, DecidableEq

/-- JavaScript `a || b` on strings: only the empty string is falsy. -/
def jsOr (a b : String) : String :=
  if a = "" then b else a

/-- JavaScript truthiness of an optional boolean field
(`undefined` and `false` are falsy, `true` is truthy). -/
def jsTruthy : Option Bool → Bool
  | some b => b
  | none => false

/-- The normalized runtime status tag shared by all backends. -/
inductive StatusTag where
  | running
  | stopped
  | unknown
deriving Repr, DecidableEq

/-- `GatewayServiceRuntime`: the shared runtime-status shape
`{status, state?, pid?, lastExitStatus?, missingUnit?, detail?}`. -/
structure GatewayServiceRuntime where
  status : StatusTag
  state : Option String := none
  pid : Option Int := none
  lastExitStatus : Option Int := none
  missingUnit : Option Bool := none
  detail : Option String := none
deriving Repr, DecidableEq

/-- The `pm2_env` sub-object of a `pm2 jlist` entry, as read by the adapter. -/
structure Pm2Env where
  status : String
  exit_code : Option Int := none
deriving Repr, DecidableEq

/-- One entry of the parsed `pm2 jlist` JSON array. `pm2_env := none` models an
entry whose `pm2_env` field is absent, so that `app.pm2_env.status` would raise
a TypeError in the source. -/
structure Pm2Entry where
  name : String
  pm2_env : Option Pm2Env := none
  pid : Option Int := none
deriving Repr, DecidableEq

/-- Message of the error thrown by `assertPm2Available`, as caught and
stringified by `readPm2ServiceRuntime`. -/
def pm2UnavailableMessage : String :=
  "Error: pm2 not available; please install it globally with `npm install -g pm2`"

/-- Environment of one `readPm2ServiceRuntime` call: whether `pm2 --version`
succeeds, the captured result of `pm2 jlist`, and the outcome of
`JSON.parse(res.stdout)` (`none` models a parse throw or a non-array value). -/
structure Pm2World where
  available : Bool
  jlist : ExecResult
  parsed : Option (List Pm2Entry)
deriving Repr, DecidableEq

/-- The body of the `try` block in `readPm2ServiceRuntime`, with field access
on a missing `pm2_env` modeled as a thrown exception (`Except.error ()`). -/
def pm2ReadBody (serviceName : String) (list : List Pm2Entry) :
    Except Unit GatewayServiceRuntime :=
  match list.find? (fun p => p.name == serviceName) with
  | none => .ok { status := .stopped, missingUnit := some true }
  | some app =>
    match app.pm2_env with
    | none => .error ()
    | some env =>
      .ok { status := if env.status == "online" then .running else .stopped
            state := some env.status
            pid := app.pid
            lastExitStatus := env.exit_code }

/-- `readPm2ServiceRuntime`: degrade to `unknown` when pm2 is unavailable, when
`jlist` exits nonzero, or when the `try` block throws; otherwise normalize the
matching entry. -/
def readPm2ServiceRuntime (serviceName : String) (w : Pm2World) :
    GatewayServiceRuntime :=
  if !w.available then
    { status := .unknown, detail := some pm2UnavailableMessage }
  else if w.jlist.code != 0 then
    { status := .unknown, detail := some (jsOr w.jlist.stderr w.jlist.stdout) }
  else
    match w.parsed with
    | none => { status := .unknown }
    | some list =>
      match pm2ReadBody serviceName list with
      | .ok rt => rt
      | .error _ => { status := .unknown }

/-- Environment of `installPm2Service`: availability plus the captured results
of the `pm2 delete`, `pm2 start` and `pm2 save` invocations. The delete
result is ignored by the source. -/
structure Pm2InstallWorld where
  available : Bool
  deleteResult : ExecResult
  startResult : ExecResult
  saveResult : ExecResult
deriving Repr, DecidableEq

/-- The argv passed to `pm2 start`:
`start <script> --name <svc> --interpreter <interpreter> -- <args...>` where
`script = programArguments[1]`, `interpreter = programArguments[0]`,
`args = programArguments.slice(2)`. -/
def pm2StartArgs (serviceName : String) (programArguments : List String) :
    List String :=
  "start" :: programArguments.getD 1 "" :: "--name" :: serviceName ::
    "--interpreter" :: programArguments.getD 0 "" :: "--" ::
    programArguments.drop 2

/-- `installPm2Service`: returns the list of `pm2` invocations issued, paired
with the outcome (`Except.error` models the thrown `Error`). -/
def installPm2Service (serviceName : String) (programArguments : List String)
    (w : Pm2InstallWorld) : List (List String) × Except String Unit :=
  if !w.available then
    ([], .error pm2UnavailableMessage)
  else
    let del := ["delete", serviceName]
    let startArgs := pm2StartArgs serviceName programArguments
    if w.startResult.code != 0 then
      ([del, startArgs],
        .error ("pm2 start failed: " ++
          jsOr w.startResult.stderr w.startResult.stdout).trim)
    else if w.saveResult.code != 0 then
      ([del, startArgs, ["save"]],
        .error ("pm2 save failed: " ++
          jsOr w.saveResult.stderr w.saveResult.stdout).trim)
    else
      ([del, startArgs, ["save"]], .ok ())

/-- Environment of `uninstallPm2Service`: both exec results are ignored by the
source. -/
structure Pm2UninstallWorld where
  available : Bool
  deleteResult : ExecResult
  saveResult : ExecResult
deriving Repr, DecidableEq

/-- `uninstallPm2Service`: throws only when pm2 is unavailable; issues
`pm2 delete <svc>` then `pm2 save` without inspecting their exit codes. -/
def uninstallPm2Service (serviceName : String) (w : Pm2UninstallWorld) :
    Except String (List (List String)) :=
  if !w.available then .error pm2UnavailableMessage
  else .ok [["delete", serviceName], ["save"]]

/-- Environment of `stopPm2Service` / `restartPm2Service`: the captured result
of the native `pm2 stop` / `pm2 restart` call, which the source ignores. -/
structure Pm2CtlWorld where
  available : Bool
  ctlResult : ExecResult
deriving Repr, DecidableEq

/-- `stopPm2Service`: throws only when pm2 is unavailable; issues
`pm2 stop <svc>` and reports success regardless of its exit code. -/
def stopPm2Service (serviceName : String) (w : Pm2CtlWorld) :
    Except String (List (List String)) :=
  if !w.available then .error pm2UnavailableMessage
  else .ok [["stop", serviceName]]

/-- `restartPm2Service`: throws only when pm2 is unavailable; issues
`pm2 restart <svc>` and reports success regardless of its exit code. -/
def restartPm2Service (serviceName : String) (w : Pm2CtlWorld) :
    Except String (List (List String)) :=
  if !w.available then .error pm2UnavailableMessage
  else .ok [["restart", serviceName]]

/-- The two Linux backends chained by the resolver. -/
inductive Backend where
  | systemd
  | pm2
deriving Repr, DecidableEq

/-- Probe outcomes seen by the Linux resolver during one stop/restart call:
`isSystemdUserServiceAvailable`, `isSystemdServiceEnabled`, `isPm2Available`,
`isPm2ServiceEnabled` (the `describe` exit-code check). -/
structure LinuxCtlWorld where
  systemdAvailable : Bool
  systemdEnabled : Bool
  pm2Available : Bool
  pm2Enabled : Bool
deriving Repr, DecidableEq

/-- Backend whose stop primitive the Linux resolver invokes for `stop`. -/
def linuxStopTarget (w : LinuxCtlWorld) : Backend :=
  if w.systemdAvailable && w.systemdEnabled then .systemd
  else if w.pm2Available && w.pm2Enabled then .pm2
  else .systemd

/-- Backend whose restart primitive the Linux resolver invokes for `restart`. -/
def linuxRestartTarget (w : LinuxCtlWorld) : Backend :=
  if w.systemdAvailable && w.systemdEnabled then .systemd
  else if w.pm2Available && w.pm2Enabled then .pm2
  else if w.systemdAvailable then .systemd
  else if w.pm2Available then .pm2
  else .systemd

/-- Modelled from the words of the spec (claim C1): the single precedence both
`stop` and `restart` are claimed to follow — systemd-user when available and
enabled, else PM2 when available and enabled, else force systemd-user. -/
def specPrecedenceTarget (w : LinuxCtlWorld) : Backend :=
  if w.systemdAvailable && w.systemdEnabled then .systemd
  else if w.pm2Available && w.pm2Enabled then .pm2
  else .systemd

/-- Amended description of the Linux `restart` fallback: same first two steps,
but when no backend reports the service enabled it prefers systemd-user if
available, else PM2 if available, else forces systemd-user. -/
def amendedRestartTarget (w : LinuxCtlWorld) : Backend :=
  if w.systemdAvailable && w.systemdEnabled then .systemd
  else if w.pm2Available && w.pm2Enabled then .pm2
  else if w.systemdAvailable then .systemd
  else if w.pm2Available then .pm2
  else .systemd

/-- Environment of one Linux `readRuntime` call: availability of each backend
and the status that the own `readRuntime` of each backend would report. -/
structure LinuxRuntimeWorld where
  systemdAvailable : Bool
  systemdRuntime : GatewayServiceRuntime
  pm2Available : Bool
  pm2Runtime : GatewayServiceRuntime
deriving Repr, DecidableEq

/-- The `readRuntime` of the Linux resolver: the systemd-user status unless it
is JS-truthy on `missingUnit`, then the PM2 status, then the unavailable
fallback. -/
def linuxReadRuntime (w : LinuxRuntimeWorld) : GatewayServiceRuntime :=
  if w.systemdAvailable && !(jsTruthy w.systemdRuntime.missingUnit) then
    w.systemdRuntime
  else if w.pm2Available then
    w.pm2Runtime
  else
    { status := .unknown, detail := some "Systemd/PM2 unavailable" }

/-- Environment of one Linux `uninstall` call: availability of each backend
and the outcome of the uninstall of each backend (which may throw). -/
structure LinuxUninstallWorld where
  systemdAvailable : Bool
  pm2Available : Bool
  systemdUninstall : Except String Unit
  pm2Uninstall : Except String Unit
deriving Repr

/-- The `uninstall` of the Linux resolver: attempt the uninstall of each
available backend inside its own try/catch, then complete successfully.
Returns the list of attempted backends with each (swallowed) attempt outcome,
paired with the overall outcome. -/
def linuxUninstall (w : LinuxUninstallWorld) :
    List (Backend × Except String Unit) × Except String Unit :=
  ((if w.systemdAvailable then [(Backend.systemd, w.systemdUninstall)] else []) ++
    (if w.pm2Available then [(Backend.pm2, w.pm2Uninstall)] else []),
    .ok ())

/-- The platform-facing metadata of a resolved `GatewayService`. The operation
fields of the source object are modeled by the standalone functions above
(`linuxStopTarget`, `linuxRestartTarget`, `linuxReadRuntime`,
`linuxUninstall`, and the PM2 adapter functions). -/
structure GatewayService where
  label : String
  loadedText : String
  notLoadedText : String
deriving Repr, DecidableEq

/-- `resolveGatewayService`, parameterized by `process.platform`: the fixed
adapter-set metadata per platform, or the construction-time error naming the
platform. -/
def resolveGatewayService (platform : String) : Except String GatewayService :=
  if platform == "darwin" then
    .ok { label := "LaunchAgent", loadedText := "loaded",
          notLoadedText := "not loaded" }
  else if platform == "linux" then
    .ok { label := "Systemd/PM2", loadedText := "active",
          notLoadedText := "inactive" }
  else if platform == "win32" then
    .ok { label := "Scheduled Task", loadedText := "registered",
          notLoadedText := "missing" }
  else
    .error ("Gateway service install not supported on " ++ platform)

/-- A global-fetch value: either an original fetch function, the proxying
closure over a proxy URL and the saved fetch, or the abort-signal wrapper
applied by `wrapFetchWithAbortSignal`. -/
inductive FetchFn where
  | base : Nat → FetchFn
  | proxied : String → FetchFn → FetchFn
  | wrapped : FetchFn → FetchFn
deriving Repr, DecidableEq

/-- The proxy-fetch module state: `globalThis.fetch` plus the module-level
`originalFetch`, `proxyInstalled` and `installedProxyUrl` variables. -/
structure ProxyFetchState where
  globalFetch : FetchFn
  originalFetch : Option FetchFn
  proxyInstalled : Bool
  installedProxyUrl : Option String
deriving Repr, DecidableEq

/-- Module state at load time, with `f` the ambient `globalThis.fetch`. -/
def initialProxyFetchState (f : FetchFn) : ProxyFetchState :=
  { globalFetch := f, originalFetch := none, proxyInstalled := false,
    installedProxyUrl := none }

/-- `uninstallProxyFetch`: restore the saved fetch and clear the module state,
or return unchanged when nothing is installed or nothing was saved. -/
def uninstallProxyFetch (s : ProxyFetchState) : ProxyFetchState :=
  match s.proxyInstalled, s.originalFetch with
  | true, some f =>
    { globalFetch := f, originalFetch := none, proxyInstalled := false,
      installedProxyUrl := none }
  | _, _ => s

/-- `installProxyFetch`: no-op when the same URL is already installed;
otherwise tear down any previous installation, save the current global fetch,
and install the wrapped proxying fetch. -/
def installProxyFetch (proxyUrl : String) (s : ProxyFetchState) :
    ProxyFetchState :=
  if s.proxyInstalled && (s.installedProxyUrl == some proxyUrl) then s
  else
    let s1 := if s.proxyInstalled then uninstallProxyFetch s else s
    { globalFetch := .wrapped (.proxied proxyUrl s1.globalFetch)
      originalFetch := some s1.globalFetch
      proxyInstalled := true
      installedProxyUrl := some proxyUrl }

/-- `isProxyFetchInstalled`. -/
def isProxyFetchInstalled (s : ProxyFetchState) : Bool :=
  s.proxyInstalled

/-- `getInstalledProxyUrl`. -/
def getInstalledProxyUrl (s : ProxyFetchState) : Option String :=
  s.installedProxyUrl

/-- States of the proxy-fetch module reachable from the initial state by any
sequence of `installProxyFetch` / `uninstallProxyFetch` calls. -/
inductive ReachableProxyState (f : FetchFn) : ProxyFetchState → Prop where
  | init : ReachableProxyState f (initialProxyFetchState f)
  | install (u : String) (s : ProxyFetchState) :
      ReachableProxyState f s → ReachableProxyState f (installProxyFetch u s)
  | uninstall (s : ProxyFetchState) :
      ReachableProxyState f s → ReachableProxyState f (uninstallProxyFetch s)

/-- C1 (counterexample): with systemd-user unavailable and PM2 available but
not enabled for the service, `stop` forces systemd-user while `restart`
invokes PM2 — so stop and restart do not follow one common precedence, and
`restart` deviates from the claimed fallback order. -/
theorem c1_stop_restart_precedence_cex :
    linuxStopTarget ⟨false, false, true, false⟩ = .systemd ∧
    linuxRestartTarget ⟨false, false, true, false⟩ = .pm2 ∧
    specPrecedenceTarget ⟨false, false, true, false⟩ = .systemd := by
  exact ⟨rfl, rfl, rfl⟩

/-- C1 (amended): `stop` follows the claimed precedence (systemd-user when
available and enabled, else PM2 when available and enabled, else force
systemd-user); `restart` follows the same first two steps, but when no
backend reports the service enabled it prefers systemd-user if available,
else PM2 if available, and only forces systemd-user when neither backend is
available. -/
theorem c1_stop_restart_precedence (w : LinuxCtlWorld) :
    linuxStopTarget w = specPrecedenceTarget w ∧
    linuxRestartTarget w = amendedRestartTarget w := by
  rcases w with ⟨sA, sE, pA, pE⟩
  cases sA <;> cases sE <;> cases pA <;> cases pE <;> exact ⟨rfl, rfl⟩

/-- C2: the Linux `readRuntime` returns the systemd-user status unless it
reports `missingUnit`, in which case it falls through to PM2 (in particular,
systemd `missingUnit:true` with a running PM2 process yields `running`), and
returns the fixed unavailable fallback when neither backend is available. -/
theorem c2_linux_readRuntime (w : LinuxRuntimeWorld) :
    (w.systemdAvailable = true →
      jsTruthy w.systemdRuntime.missingUnit = false →
      linuxReadRuntime w = w.systemdRuntime) ∧
    (w.systemdAvailable = true →
      w.systemdRuntime.missingUnit = some true →
      w.pm2Available = true →
      linuxReadRuntime w = w.pm2Runtime) ∧
    (w.systemdAvailable = true →
      w.systemdRuntime.missingUnit = some true →
      w.pm2Available = true →
      w.pm2Runtime.status = .running →
      (linuxReadRuntime w).status = .running) ∧
    (w.systemdAvailable = false → w.pm2Available = false →
      linuxReadRuntime w =
        { status := .unknown, detail := some "Systemd/PM2 unavailable" }) := by
  refine ⟨?_, ?_, ?_, ?_⟩
  · intro h1 h2
    simp [linuxReadRuntime, h1, h2]
  · intro h1 h2 h3
    simp [linuxReadRuntime, h1, h2, h3, jsTruthy]
  · intro h1 h2 h3 h4
    simp [linuxReadRuntime, h1, h2, h3, h4, jsTruthy]
  · intro h1 h2
    simp [linuxReadRuntime, h1, h2]

/-- C2 witness: systemd-user reports `missingUnit:true`, PM2 reports a running
process, and `readRuntime` returns the running PM2 status. -/
theorem c2_linux_readRuntime_witness :
    linuxReadRuntime
      { systemdAvailable := true
        systemdRuntime := { status := .stopped, missingUnit := some true }
        pm2Available := true
        pm2Runtime := { status := .running } } =
      { status := .running } :=
  (c2_linux_readRuntime _).2.1 rfl rfl rfl

/-- C4: `resolveGatewayService` returns the fixed adapter-set metadata for
darwin, linux and win32, and fails at construction time with an error naming
the platform for every other platform. -/
theorem c4_resolveGatewayService :
    resolveGatewayService "darwin" =
      .ok { label := "LaunchAgent", loadedText := "loaded",
            notLoadedText := "not loaded" } ∧
    resolveGatewayService "linux" =
      .ok { label := "Systemd/PM2", loadedText := "active",
            notLoadedText := "inactive" } ∧
    resolveGatewayService "win32" =
      .ok { label := "Scheduled Task", loadedText := "registered",
            notLoadedText := "missing" } ∧
    ∀ p : String, p ≠ "darwin" → p ≠ "linux" → p ≠ "win32" →
      resolveGatewayService p =
        .error ("Gateway service install not supported on " ++ p) := by
  refine ⟨rfl, rfl, rfl, ?_⟩
  intro p h1 h2 h3
  simp [resolveGatewayService, h1, h2, h3]

/-- C4 witness: an unsupported platform yields the construction-time error
naming that platform. -/
theorem c4_resolveGatewayService_witness :
    resolveGatewayService "freebsd" =
      .error ("Gateway service install not supported on " ++ "freebsd") :=
  c4_resolveGatewayService.2.2.2 "freebsd" (by decide) (by decide) (by decide)

/-- C3: on parsed `jlist` output, `readPm2ServiceRuntime` locates the entry
whose `name` equals the service name and maps native status `"online"` to
`running` (anything else to `stopped`), carrying `state`, `pid` and
`lastExitStatus`; with no matching entry it returns
`{status:"stopped", missingUnit:true}`; and `missingUnit = true` always
implies `status = "stopped"`. -/
theorem c3_readPm2ServiceRuntime :
    (∀ (svc : String) (w : Pm2World) (list : List Pm2Entry)
        (app : Pm2Entry) (env : Pm2Env),
      w.available = true → w.jlist.code = 0 → w.parsed = some list →
      list.find? (fun p => p.name == svc) = some app →
      app.pm2_env = some env →
      readPm2ServiceRuntime svc w =
        { status := if env.status == "online" then .running else .stopped
          state := some env.status
          pid := app.pid
          lastExitStatus := env.exit_code }) ∧
    (∀ (svc : String) (w : Pm2World) (list : List Pm2Entry),
      w.available = true → w.jlist.code = 0 → w.parsed = some list →
      list.find? (fun p => p.name == svc) = none →
      readPm2ServiceRuntime svc w =
        { status := .stopped, missingUnit := some true }) ∧
    (readPm2ServiceRuntime "svc"
      { available := true
        jlist := { stdout := "", stderr := "", code := 0 }
        parsed := some [{ name := "svc"
                          pm2_env := some { status := "online"
                                            exit_code := some 0 }
                          pid := some 123 }] } =
      { status := .running, state := some "online", pid := some 123
        lastExitStatus := some 0 }) ∧
    (∀ (svc : String) (w : Pm2World),
      (readPm2ServiceRuntime svc w).missingUnit = some true →
      (readPm2ServiceRuntime svc w).status = .stopped) := by
  refine ⟨?_, ?_, by decide, ?_⟩
  · intro svc w list app env h1 h2 h3 h4 h5
    simp [readPm2ServiceRuntime, pm2ReadBody, h1, h2, h3, h4, h5]
  · intro svc w list h1 h2 h3 h4
    simp [readPm2ServiceRuntime, pm2ReadBody, h1, h2, h3, h4]
  · intro svc w
    rcases w with ⟨avail, jl, parsed⟩
    cases avail
    · intro h; simp [readPm2ServiceRuntime] at h
    · by_cases hc : jl.code = 0
      · rcases parsed with _ | list
        · intro h; simp [readPm2ServiceRuntime, hc] at h
        · rcases hfind : list.find? (fun p => p.name == svc) with _ | app
          · intro _
            simp [readPm2ServiceRuntime, pm2ReadBody, hc, hfind]
          · rcases henv : app.pm2_env with _ | env
            · intro h
              simp [readPm2ServiceRuntime, pm2ReadBody, hc, hfind, henv] at h
            · intro h
              simp [readPm2ServiceRuntime, pm2ReadBody, hc, hfind, henv] at h
      · intro h; simp [readPm2ServiceRuntime, hc] at h

/-- C3 witness: a matching online entry yields the running status with state,
pid and last exit status carried over. -/
theorem c3_readPm2ServiceRuntime_witness :
    readPm2ServiceRuntime "gw"
      { available := true
        jlist := { stdout := "[]", stderr := "", code := 0 }
        parsed := some [{ name := "other" },
                        { name := "gw"
                          pm2_env := some { status := "errored"
                                            exit_code := some 1 }
                          pid := some 7 }] } =
      { status := .stopped, state := some "errored", pid := some 7
        lastExitStatus := some 1 } :=
  c3_readPm2ServiceRuntime.1 "gw" _ _
    { name := "gw"
      pm2_env := some { status := "errored", exit_code := some 1 }
      pid := some 7 }
    { status := "errored", exit_code := some 1 }
    rfl rfl rfl (by decide) rfl

/-- C5: every failure mode of the PM2 runtime query degrades to a
`RuntimeStatus` value instead of an exception — pm2 missing, `jlist` exiting
nonzero, malformed JSON, and a thrown field access inside the parse block all
yield `status:"unknown"` (with a detail where the source supplies one) — and
the Linux `readRuntime` always returns one of the two backend statuses or
the fixed unavailable fallback. -/
theorem c5_readRuntime_never_throws (svc : String) (w : Pm2World)
    (lw : LinuxRuntimeWorld) :
    (w.available = false →
      readPm2ServiceRuntime svc w =
        { status := .unknown, detail := some pm2UnavailableMessage }) ∧
    (w.available = true → w.jlist.code ≠ 0 →
      readPm2ServiceRuntime svc w =
        { status := .unknown
          detail := some (jsOr w.jlist.stderr w.jlist.stdout) }) ∧
    (w.available = true → w.jlist.code = 0 → w.parsed = none →
      readPm2ServiceRuntime svc w = { status := .unknown }) ∧
    (∀ list, w.available = true → w.jlist.code = 0 → w.parsed = some list →
      pm2ReadBody svc list = .error () →
      readPm2ServiceRuntime svc w = { status := .unknown }) ∧
    (linuxReadRuntime lw = lw.systemdRuntime ∨
      linuxReadRuntime lw = lw.pm2Runtime ∨
      linuxReadRuntime lw =
        { status := .unknown, detail := some "Systemd/PM2 unavailable" }) := by
  refine ⟨?_, ?_, ?_, ?_, ?_⟩
  · intro h1
    simp [readPm2ServiceRuntime, h1]
  · intro h1 h2
    simp [readPm2ServiceRuntime, h1, h2]
  · intro h1 h2 h3
    simp [readPm2ServiceRuntime, h1, h2, h3]
  · intro list h1 h2 h3 h4
    simp [readPm2ServiceRuntime, h1, h2, h3, h4]
  · by_cases h1 :
      (lw.systemdAvailable && !(jsTruthy lw.systemdRuntime.missingUnit)) = true
    · exact Or.inl (by simp [linuxReadRuntime, h1])
    · by_cases h2 : lw.pm2Available = true
      · exact Or.inr (Or.inl (by simp [linuxReadRuntime, h1, h2]))
      · exact Or.inr (Or.inr (by simp [linuxReadRuntime, h1, h2]))

/-- C5 witness: a `jlist` entry without a `pm2_env` object (whose field access
would throw in the source) degrades to `status:"unknown"`. -/
theorem c5_readRuntime_never_throws_witness :
    readPm2ServiceRuntime "svc"
      { available := true
        jlist := { stdout := "[\x7b\x7d]", stderr := "", code := 0 }
        parsed := some [{ name := "svc" }] } =
      { status := .unknown } :=
  (c5_readRuntime_never_throws "svc" _
      { systemdAvailable := true, systemdRuntime := { status := .running }
        pm2Available := true, pm2Runtime := { status := .running } }
    ).2.2.2.1 [{ name := "svc" }] rfl rfl rfl rfl

/-- C6 (counterexample): with pm2 available and the native stop/restart
command exiting nonzero (code 1, stderr captured), `stopPm2Service` and
`restartPm2Service` still complete successfully instead of failing with a
`CommandError`. -/
theorem c6_pm2_ctl_silent_success_cex :
    stopPm2Service "clawdbot-gateway"
      { available := true
        ctlResult := { stdout := "", stderr := "boom", code := 1 } } =
      .ok [["stop", "clawdbot-gateway"]] ∧
    restartPm2Service "clawdbot-gateway"
      { available := true
        ctlResult := { stdout := "", stderr := "boom", code := 1 } } =
      .ok [["restart", "clawdbot-gateway"]] :=
  ⟨rfl, rfl⟩

/-- C6 (amended): the PM2 adapter stop and restart ignore the exit status of
the native `pm2 stop`/`pm2 restart` command — whenever pm2 itself is
available they issue the native command and report success regardless of its
result, and they fail only when pm2 is unavailable. -/
theorem c6_pm2_ctl_ignores_exit (svc : String) (w : Pm2CtlWorld) :
    (w.available = true →
      stopPm2Service svc w = .ok [["stop", svc]] ∧
      restartPm2Service svc w = .ok [["restart", svc]]) ∧
    (w.available = false →
      stopPm2Service svc w = .error pm2UnavailableMessage ∧
      restartPm2Service svc w = .error pm2UnavailableMessage) := by
  constructor <;> intro h <;> simp [stopPm2Service, restartPm2Service, h]

/-- C6 witness: with pm2 available, stop succeeds and issues the native stop
command. -/
theorem c6_pm2_ctl_ignores_exit_witness :
    stopPm2Service "gw"
      { available := true
        ctlResult := { stdout := "", stderr := "", code := 0 } } =
      .ok [["stop", "gw"]] :=
  ((c6_pm2_ctl_ignores_exit "gw" _).1 rfl).1

/-- C7: `installPm2Service` first issues `pm2 delete <svc>`, then exactly
`pm2 start <script> --name <svc> --interpreter <interpreter> -- <args...>`,
then `pm2 save`; a nonzero start step raises the install error containing the
captured stderr (falling back to stdout), and a nonzero save step raises a
hard install error even though start succeeded. -/
theorem c7_installPm2Service (svc interp script : String) (rest : List String)
    (w : Pm2InstallWorld) (hav : w.available = true) :
    (installPm2Service svc (interp :: script :: rest) w).1.head? =
      some ["delete", svc] ∧
    pm2StartArgs svc (interp :: script :: rest) =
      "start" :: script :: "--name" :: svc :: "--interpreter" :: interp ::
        "--" :: rest ∧
    pm2StartArgs svc ["node", "/app/gw.js", "--port", "3000"] =
      ["start", "/app/gw.js", "--name", svc, "--interpreter", "node", "--",
        "--port", "3000"] ∧
    (w.startResult.code = 0 → w.saveResult.code = 0 →
      installPm2Service svc (interp :: script :: rest) w =
        ([["delete", svc], pm2StartArgs svc (interp :: script :: rest),
          ["save"]], .ok ())) ∧
    (w.startResult.code ≠ 0 →
      (installPm2Service svc (interp :: script :: rest) w).2 =
        .error ("pm2 start failed: " ++
          jsOr w.startResult.stderr w.startResult.stdout).trim) ∧
    (w.startResult.code = 0 → w.saveResult.code ≠ 0 →
      (installPm2Service svc (interp :: script :: rest) w).2 =
        .error ("pm2 save failed: " ++
          jsOr w.saveResult.stderr w.saveResult.stdout).trim) := by
  refine ⟨?_, rfl, rfl, ?_, ?_, ?_⟩
  · by_cases hs : w.startResult.code = 0
    · by_cases hv : w.saveResult.code = 0
      · simp [installPm2Service, hav, hs, hv]
      · simp [installPm2Service, hav, hs, hv]
    · simp [installPm2Service, hav, hs]
  · intro hs hv
    simp [installPm2Service, hav, hs, hv]
  · intro hs
    simp [installPm2Service, hav, hs]
  · intro hs hv
    simp [installPm2Service, hav, hs, hv]

/-- C7 witness: the example argv of the spec yields exactly
`delete`, `start /app/gw.js --name gw --interpreter node -- --port 3000`,
then `save`, and succeeds. -/
theorem c7_installPm2Service_witness :
    installPm2Service "gw" ["node", "/app/gw.js", "--port", "3000"]
      { available := true
        deleteResult := { stdout := "", stderr := "", code := 0 }
        startResult := { stdout := "", stderr := "", code := 0 }
        saveResult := { stdout := "", stderr := "", code := 0 } } =
      ([["delete", "gw"],
        ["start", "/app/gw.js", "--name", "gw", "--interpreter", "node",
          "--", "--port", "3000"],
        ["save"]], .ok ()) :=
  (c7_installPm2Service "gw" "node" "/app/gw.js" ["--port", "3000"] _
    rfl).2.2.2.1 rfl rfl

/-- C8: the Linux `uninstall` attempts removal on every available backend
(both systemd-user and PM2 when both are available), completes successfully
regardless of each attempt outcome, and `uninstallPm2Service` itself
succeeds whatever the ignored `pm2 delete`/`pm2 save` results are — so
uninstalling when no unit was ever installed is a no-op success. -/
theorem c8_linux_uninstall (w : LinuxUninstallWorld) (svc : String)
    (pw : Pm2UninstallWorld) :
    (linuxUninstall w).2 = .ok () ∧
    (w.systemdAvailable = true → w.pm2Available = true →
      (linuxUninstall w).1 =
        [(Backend.systemd, w.systemdUninstall),
          (Backend.pm2, w.pm2Uninstall)]) ∧
    (pw.available = true →
      uninstallPm2Service svc pw = .ok [["delete", svc], ["save"]]) := by
  refine ⟨rfl, ?_, ?_⟩
  · intro h1 h2
    simp [linuxUninstall, h1, h2]
  · intro h
    simp [uninstallPm2Service, h]

/-- C8 witness: with both backends available and both uninstall attempts
failing, both are still attempted and the overall uninstall succeeds. -/
theorem c8_linux_uninstall_witness :
    (linuxUninstall
      { systemdAvailable := true, pm2Available := true
        systemdUninstall := .error "Failed to stop"
        pm2Uninstall := .error "boom" }).1 =
      [(Backend.systemd, .error "Failed to stop"),
        (Backend.pm2, .error "boom")] :=
  (c8_linux_uninstall _ "gw"
    { available := true
      deleteResult := { stdout := "", stderr := "not found", code := 1 }
      saveResult := { stdout := "", stderr := "", code := 0 } }).2.1 rfl rfl

/-- C9: re-installing the currently installed proxy URL is a no-op; installing
a different URL first tears the previous installation down (it equals
uninstalling and then installing); and uninstalling restores the saved
original fetch and clears the recorded URL, so `getInstalledProxyUrl` returns
none afterwards — in particular install-then-uninstall from the initial state
is the identity. -/
theorem c9_proxy_fetch_lifecycle (u v : String) (s : ProxyFetchState)
    (f g : FetchFn) :
    (s.proxyInstalled = true → s.installedProxyUrl = some u →
      installProxyFetch u s = s) ∧
    (s.proxyInstalled = true → s.installedProxyUrl ≠ some v →
      installProxyFetch v s = installProxyFetch v (uninstallProxyFetch s)) ∧
    (s.proxyInstalled = true → s.originalFetch = some f →
      (uninstallProxyFetch s).globalFetch = f ∧
      (uninstallProxyFetch s).originalFetch = none ∧
      getInstalledProxyUrl (uninstallProxyFetch s) = none) ∧
    uninstallProxyFetch (installProxyFetch u (initialProxyFetchState g)) =
      initialProxyFetchState g := by
  refine ⟨?_, ?_, ?_, ?_⟩
  · intro h1 h2
    simp [installProxyFetch, h1, h2]
  · intro h1 h2
    have hne : (s.installedProxyUrl == some v) = false := by
      simp [h2]
    rcases ho : s.originalFetch with _ | f0
    · have hu : uninstallProxyFetch s = s := by
        simp [uninstallProxyFetch, h1, ho]
      rw [hu]
    · have hu : uninstallProxyFetch s =
          { globalFetch := f0, originalFetch := none
            proxyInstalled := false, installedProxyUrl := none } := by
        simp [uninstallProxyFetch, h1, ho]
      simp [installProxyFetch, h1, hne, hu]
  · intro h1 h2
    simp [uninstallProxyFetch, getInstalledProxyUrl, h1, h2]
  · simp [installProxyFetch, initialProxyFetchState, uninstallProxyFetch]

/-- C9 witness: re-installing the already-installed proxy URL leaves the
state unchanged. -/
theorem c9_proxy_fetch_lifecycle_witness :
    installProxyFetch "http://127.0.0.1:7890"
      { globalFetch := .wrapped (.proxied "http://127.0.0.1:7890" (.base 0))
        originalFetch := some (.base 0)
        proxyInstalled := true
        installedProxyUrl := some "http://127.0.0.1:7890" } =
      { globalFetch := .wrapped (.proxied "http://127.0.0.1:7890" (.base 0))
        originalFetch := some (.base 0)
        proxyInstalled := true
        installedProxyUrl := some "http://127.0.0.1:7890" } :=
  (c9_proxy_fetch_lifecycle "http://127.0.0.1:7890" "other" _
    (.base 0) (.base 0)).1 rfl rfl

/-- C10: in every state reachable from the initial state by
install/uninstall calls, `proxyInstalled`, a recorded `installedProxyUrl` and
a saved `originalFetch` are all present or all absent together; hence
`isProxyFetchInstalled` is true exactly when `getInstalledProxyUrl` returns a
URL. -/
theorem c10_proxy_state_invariant (f : FetchFn) (s : ProxyFetchState)
    (h : ReachableProxyState f s) :
    (s.proxyInstalled = true ↔ s.installedProxyUrl.isSome = true) ∧
    (s.proxyInstalled = true ↔ s.originalFetch.isSome = true) ∧
    (isProxyFetchInstalled s = true ↔
      (getInstalledProxyUrl s).isSome = true) := by
  induction h with
  | init =>
    simp [initialProxyFetchState, isProxyFetchInstalled, getInstalledProxyUrl]
  | install u s hs ih =>
    by_cases hg : (s.proxyInstalled && (s.installedProxyUrl == some u)) = true
    · have he : installProxyFetch u s = s := by
        simp [installProxyFetch, hg]
      rw [he]; exact ih
    · simp [installProxyFetch, hg, isProxyFetchInstalled, getInstalledProxyUrl]
  | uninstall s hs ih =>
    cases hp : s.proxyInstalled
    · rcases ho : s.originalFetch with _ | f0
      · have he : uninstallProxyFetch s = s := by
          simp [uninstallProxyFetch, hp, ho]
        rw [he]; exact ih
      · have he : uninstallProxyFetch s = s := by
          simp [uninstallProxyFetch, hp, ho]
        rw [he]; exact ih
    · rcases ho : s.originalFetch with _ | f0
      · have he : uninstallProxyFetch s = s := by
          simp [uninstallProxyFetch, hp, ho]
        rw [he]; exact ih
      · simp [uninstallProxyFetch, hp, ho, isProxyFetchInstalled,
          getInstalledProxyUrl]

/-- C10 witness: the invariant instantiated at the initial state. -/
theorem c10_proxy_state_invariant_witness :
    isProxyFetchInstalled (initialProxyFetchState (.base 0)) = true ↔
      (getInstalledProxyUrl (initialProxyFetchState (.base 0))).isSome =
        true :=
  (c10_proxy_state_invariant (.base 0) _ ReachableProxyState.init).2.2
